import Mathlib

/-!
Verification of the ai-smart-sentinel access-control core.

This file gives a shallow embedding of the decision-relevant logic of the
repository's backend and proves the specification claims about it:

* `backend/decision_engine.py` — `DecisionEngine.make_decision`,
  `DecisionEngine.log_decision`, `DecisionEngine.get_statistics`;
* `backend/injection_detector.py` — `InjectionDetector.full_injection_check`,
  `InjectionDetector.analyze_sensor_noise`;
* `backend/rppg_detector.py` — `RPPGDetector.process_frame`;
* `backend/liveness_detector.py` — `LivenessDetector.hybrid_liveness_check`.

Python floats are modelled as rationals (`ℚ`); the per-frame image features
(noise level, texture score, periodicity, dominant rate, SNR, ...) that the
source computes from raw pixels with OpenCV/NumPy are taken as inputs of the
embedded functions, and all the gating, fusion and bookkeeping logic that the
claims are about is translated line by line from the source.
-/

/-- Result of the injection check as consumed by `make_decision`:
the `(is_injection, confidence, details)` triple, details dropped. -/
structure InjectionResult where
  is_injection : Bool
  confidence : ℚ
deriving DecidableEq, Repr

/-- Result of the liveness check as consumed by `make_decision`:
the `(is_real, confidence, details)` triple, details dropped. -/
structure LivenessResult where
  is_real : Bool
  confidence : ℚ
deriving DecidableEq, Repr

/-- Result of face verification as consumed by `make_decision`:
the `(matched, similarity, person_id, details)` tuple, details dropped. -/
structure VerificationResult where
  matched : Bool
  similarity : ℚ
  person_id : String
deriving DecidableEq, Repr

/-- The access decision record built by `DecisionEngine.make_decision`
(`backend/decision_engine.py:39-122`), restricted to the fields the claims
and the statistics read: `access_granted`, `decision`, `confidence`,
`person_id`. -/
structure Decision where
  access_granted : Bool
  decision : String
  confidence : ℚ
  person_id : String
deriving DecidableEq, Repr

/-- Embedding of `DecisionEngine.make_decision` (`backend/decision_engine.py:22-122`):
fail-fast priority injection → liveness → identity; on full pass the
composite confidence is `(100 - inj) * 0.3 + live * 0.3 + sim * 0.4`. -/
def make_decision (inj : InjectionResult) (live : LivenessResult)
    (ver : VerificationResult) : Decision :=
  if inj.is_injection then
    { access_granted := false
      decision := "INJECTION_ATTACK_DETECTED"
      confidence := inj.confidence
      person_id := ver.person_id }
  else if !live.is_real then
    { access_granted := false
      decision := "SPOOF_DETECTED"
      confidence := live.confidence
      person_id := ver.person_id }
  else if !ver.matched then
    { access_granted := false
      decision := "FACE_MISMATCH"
      confidence := ver.similarity
      person_id := ver.person_id }
  else
    { access_granted := true
      decision := "ACCESS_GRANTED"
      confidence := (100 - inj.confidence) * 0.3 + live.confidence * 0.3
        + ver.similarity * 0.4
      person_id := ver.person_id }

/-- Additive injection score of `InjectionDetector.full_injection_check`
(`backend/injection_detector.py:172-181`): virtual camera 60, sensor noise 15,
stability 10, metadata 15. -/
def injection_score (vc sn st md : Bool) : ℕ :=
  (if vc then 60 else 0) + (if sn then 15 else 0) + (if st then 10 else 0)
    + (if md then 15 else 0)

/-- The verdict threshold of `full_injection_check`
(`backend/injection_detector.py:183`): `is_injection = injection_score > 50`. -/
def injection_verdict (score : ℕ) : Bool :=
  decide (50 < score)

/-- Embedding of `InjectionDetector.full_injection_check`
(`backend/injection_detector.py:137-185`) at the level of its four sub-check
outcomes; returns the `(is_injection, injection_score)` pair. A sub-check that
is skipped (no previous frame, no capture handle) keeps its default `False`. -/
def full_injection_check (vc sn st md : Bool) : Bool × ℕ :=
  let score := injection_score vc sn st md
  (injection_verdict score, score)

/-- Embedding of `DecisionEngine.log_decision` (`backend/decision_engine.py:124-161`) on
the in-file ledger list: append the new decision, then keep only the last
1000 entries (`logs = logs[-1000:]` when `len(logs) > 1000`). -/
def log_decision (logs : List Decision) (d : Decision) : List Decision :=
  if 1000 < (logs ++ [d]).length then
    (logs ++ [d]).drop ((logs ++ [d]).length - 1000)
  else logs ++ [d]

/-- The statistics record returned by `DecisionEngine.get_statistics`
(`backend/decision_engine.py:174-209`). -/
structure Stats where
  total_attempts : ℕ
  access_granted : ℕ
  access_denied : ℕ
  injection_attacks : ℕ
  spoofs_detected : ℕ
  face_mismatches : ℕ
  success_rate : ℚ
deriving DecidableEq, Repr

/-- Embedding of `DecisionEngine.get_statistics` (`backend/decision_engine.py:174-209`)
over the retained ledger entries. -/
def get_statistics (logs : List Decision) : Stats :=
  let total := logs.length
  let granted := (logs.filter (fun l => l.access_granted)).length
  { total_attempts := total
    access_granted := granted
    access_denied := total - granted
    injection_attacks :=
      (logs.filter (fun l => l.decision == "INJECTION_ATTACK_DETECTED")).length
    spoofs_detected :=
      (logs.filter (fun l => l.decision == "SPOOF_DETECTED")).length
    face_mismatches :=
      (logs.filter (fun l => l.decision == "FACE_MISMATCH")).length
    success_rate := if 0 < total then (granted : ℚ) / total * 100 else 0 }

theorem log_decision_length_le (logs : List Decision) (d : Decision)
    (h : logs.length ≤ 1000) : (log_decision logs d).length ≤ 1000 := by
  unfold log_decision
  split
  · rename_i hgt
    rw [List.length_drop]
    omega
  · rename_i hle
    rw [List.length_append, List.length_singleton]
    rw [not_lt, List.length_append, List.length_singleton] at hle
    omega

theorem foldl_log_decision_length_le (ds : List Decision) :
    ∀ logs : List Decision, logs.length ≤ 1000 →
      (ds.foldl log_decision logs).length ≤ 1000 := by
  induction ds with
  | nil => intro logs h; simpa using h
  | cons d ds ih =>
      intro logs h
      simpa using ih (log_decision logs d) (log_decision_length_le logs d h)

theorem foldl_log_decision_under_cap (ds : List Decision) :
    ∀ logs : List Decision, logs.length + ds.length ≤ 1000 →
      ds.foldl log_decision logs = logs ++ ds := by
  induction ds with
  | nil => intro logs _; simp
  | cons d ds ih =>
      intro logs h
      have hlen : ¬ 1000 < (logs ++ [d]).length := by
        simp only [List.length_append, List.length_singleton]
        simp only [List.length_cons] at h
        omega
      have hstep : log_decision logs d = logs ++ [d] := by
        rw [log_decision, if_neg hlen]
      rw [List.foldl_cons, hstep, ih (logs ++ [d]) (by simp at h ⊢; omega)]
      simp

theorem foldl_log_decision_at_cap (ds : List Decision) (h : ds.length = 1001) :
    ds.foldl log_decision [] = ds.tail := by
  have hne : ds ≠ [] := by intro he; rw [he] at h; simp at h
  have hds : ds.dropLast ++ [ds.getLast hne] = ds := List.dropLast_append_getLast hne
  have hinit : ds.dropLast.length = 1000 := by
    rw [List.length_dropLast, h]
  have hfold : ds.dropLast.foldl log_decision [] = ds.dropLast := by
    simpa using foldl_log_decision_under_cap ds.dropLast [] (by simp [hinit])
  conv_lhs => rw [← hds]
  rw [List.foldl_append, hfold]
  simp only [List.foldl_cons, List.foldl_nil]
  unfold log_decision
  rw [hds]
  simp [h]

/-- A fixed decision record, used to instantiate universally quantified
ledger statements on concrete inputs. -/
def sampleDecision : Decision :=
  { access_granted := false
    decision := "SPOOF_DETECTED"
    confidence := 85
    person_id := "unknown" }

/-- C8: the ledger is capacity-capped at 1000 with oldest-first eviction:
any append sequence from the empty ledger retains at most 1000 decisions;
a sequence of 1001 appends retains exactly 1000, namely all but the oldest;
and the statistics are computed over exactly the retained entries. -/
theorem ledger_cap_and_stats :
    (∀ ds : List Decision, (ds.foldl log_decision []).length ≤ 1000)
    ∧ (∀ ds : List Decision, ds.length = 1001 →
        ds.foldl log_decision [] = ds.tail
        ∧ (ds.foldl log_decision []).length = 1000)
    ∧ (∀ logs : List Decision,
        (get_statistics logs).total_attempts = logs.length
        ∧ (get_statistics logs).access_granted
          = (logs.filter (fun l => l.access_granted)).length
        ∧ (get_statistics logs).access_denied
          = logs.length - (logs.filter (fun l => l.access_granted)).length
        ∧ (get_statistics logs).injection_attacks
          = (logs.filter (fun l => l.decision == "INJECTION_ATTACK_DETECTED")).length
        ∧ (get_statistics logs).spoofs_detected
          = (logs.filter (fun l => l.decision == "SPOOF_DETECTED")).length
        ∧ (get_statistics logs).face_mismatches
          = (logs.filter (fun l => l.decision == "FACE_MISMATCH")).length
        ∧ (get_statistics logs).success_rate
          = (if 0 < logs.length then
              ((logs.filter (fun l => l.access_granted)).length : ℚ)
                / logs.length * 100
            else 0)) := by
  refine ⟨fun ds => foldl_log_decision_length_le ds [] (by simp), fun ds h => ?_,
    fun logs => ?_⟩
  · have ht := foldl_log_decision_at_cap ds h
    refine ⟨ht, ?_⟩
    rw [ht, List.length_tail, h]
  · exact ⟨rfl, rfl, rfl, rfl, rfl, rfl, rfl⟩

/-- Witness for C8: instantiating the capped-append statement at a concrete
sequence of 1001 identical decisions. -/
theorem ledger_cap_and_stats_witness :
    (List.replicate 1001 sampleDecision).length = 1001
    ∧ ((List.replicate 1001 sampleDecision).foldl log_decision []
        = (List.replicate 1001 sampleDecision).tail
      ∧ ((List.replicate 1001 sampleDecision).foldl log_decision []).length
        = 1000) :=
  ⟨by rw [List.length_replicate],
    ledger_cap_and_stats.2.1 (List.replicate 1001 sampleDecision)
      (by rw [List.length_replicate])⟩

/-- C1: `make_decision` applies the fixed priority injection → liveness →
identity: injection wins regardless of the other verdicts and denies access;
else a non-real liveness verdict yields SPOOF_DETECTED denied; else a
non-match yields FACE_MISMATCH denied; else ACCESS_GRANTED with access. -/
theorem make_decision_priority_order (ic lc sim : ℚ) (pid : String)
    (r m : Bool) :
    ((make_decision ⟨true, ic⟩ ⟨r, lc⟩ ⟨m, sim, pid⟩).decision
        = "INJECTION_ATTACK_DETECTED"
      ∧ (make_decision ⟨true, ic⟩ ⟨r, lc⟩ ⟨m, sim, pid⟩).access_granted
        = false)
    ∧ ((make_decision ⟨false, ic⟩ ⟨false, lc⟩ ⟨m, sim, pid⟩).decision
        = "SPOOF_DETECTED"
      ∧ (make_decision ⟨false, ic⟩ ⟨false, lc⟩ ⟨m, sim, pid⟩).access_granted
        = false)
    ∧ ((make_decision ⟨false, ic⟩ ⟨true, lc⟩ ⟨false, sim, pid⟩).decision
        = "FACE_MISMATCH"
      ∧ (make_decision ⟨false, ic⟩ ⟨true, lc⟩ ⟨false, sim, pid⟩).access_granted
        = false)
    ∧ ((make_decision ⟨false, ic⟩ ⟨true, lc⟩ ⟨true, sim, pid⟩).decision
        = "ACCESS_GRANTED"
      ∧ (make_decision ⟨false, ic⟩ ⟨true, lc⟩ ⟨true, sim, pid⟩).access_granted
        = true) := by
  simp [make_decision]

/-- C4: when all three checks pass, the composite confidence is exactly
`0.3 * (100 - injection_confidence) + 0.3 * liveness_confidence
+ 0.4 * identity_similarity`. -/
theorem make_decision_granted_confidence (ic lc sim : ℚ) (pid : String) :
    (make_decision ⟨false, ic⟩ ⟨true, lc⟩ ⟨true, sim, pid⟩).confidence
      = 0.3 * (100 - ic) + 0.3 * lc + 0.4 * sim := by
  simp [make_decision]
  ring

/-- C5: `full_injection_check` sums the triggered sub-check weights
(60/15/10/15) and reports injection iff the score is strictly above 50;
the threshold maps 51 to `true` and 50 to `false`. -/
theorem full_injection_check_score_threshold :
    (∀ vc sn st md : Bool,
        (full_injection_check vc sn st md).2
          = (if vc then 60 else 0) + (if sn then 15 else 0)
            + (if st then 10 else 0) + (if md then 15 else 0)
        ∧ ((full_injection_check vc sn st md).1 = true
          ↔ 50 < (full_injection_check vc sn st md).2))
    ∧ injection_verdict 51 = true ∧ injection_verdict 50 = false := by
  decide

/-- C10: the three non-environment sub-check weights sum to 40 ≤ 50, so the
verdict of `full_injection_check` coincides with the virtual-camera flag:
no combination of the other three sub-checks alone reports injection. -/
theorem full_injection_check_eq_virtual_camera :
    ∀ vc sn st md : Bool, (full_injection_check vc sn st md).1 = vc := by
  decide

/-- Insert a rational into an ascending-sorted list, keeping it sorted. -/
def insertSorted (x : ℚ) : List ℚ → List ℚ
  | [] => [x]
  | y :: ys => if x ≤ y then x :: y :: ys else y :: insertSorted x ys

/-- Ascending insertion sort on rationals, used to model `np.median`. -/
def sortAsc (l : List ℚ) : List ℚ :=
  l.foldr insertSorted []

/-- Embedding of `np.median` over the rolling BPM history: middle element of the sorted
list, or the mean of the two middle elements for even length. -/
def median (l : List ℚ) : ℚ :=
  let s := sortAsc l
  let n := s.length
  if n = 0 then 0
  else if n % 2 = 1 then s.getD (n / 2) 0
  else (s.getD (n / 2 - 1) 0 + s.getD (n / 2) 0) / 2

/-- Status flag of an rPPG result, from the `details` mapping built by
`RPPGDetector.process_frame` and `LivenessDetector.detect_heartbeat_rppg`:
`{"error": "no_roi"}`, `{"error": "no_face_detected"}`,
`"collecting_data"`, `"analyzing"`, `"no_heartbeat"`. -/
inductive RPPGStatus where
  | errNoRoi
  | errNoFace
  | collecting
  | analyzing
  | noHeartbeat
deriving DecidableEq, Repr

/-- Mutable state of `RPPGDetector` (`backend/rppg_detector.py:29-43`) at the
default configuration `fps=30, window_size=10`: the green-value ring buffer
is abstracted to its length (capacity `30 * 10 = 300`), plus the rolling BPM
history (capacity 5), the smoothed `current_bpm` and the detection flag. -/
structure RPPGState where
  green_count : ℕ
  bpm_history : List ℚ
  current_bpm : ℚ
  heartbeat_detected : Bool
deriving DecidableEq, Repr

/-- Fresh `RPPGDetector` state (`__init__` / `reset`). -/
def initRPPGState : RPPGState :=
  { green_count := 0, bpm_history := [], current_bpm := 0,
    heartbeat_detected := false }

/-- The per-call quantities that `process_frame` computes from raw pixels,
taken as inputs of the embedding: whether ROI extraction and green-channel
averaging succeed, and the dominant rate, SNR and quality score the spectral
analysis yields on the current buffer. -/
structure FrameMeasure where
  roi_ok : Bool
  bpm : ℚ
  snr : ℚ
  quality : ℚ
deriving DecidableEq, Repr

/-- The `(has_heartbeat, bpm, confidence, status)` quadruple returned by
`RPPGDetector.process_frame`. -/
structure RPPGResult where
  has_heartbeat : Bool
  bpm : ℚ
  confidence : ℚ
  status : RPPGStatus
deriving DecidableEq, Repr

/-- Embedding of `RPPGDetector.process_frame` (`backend/rppg_detector.py:214-292`):
failed ROI → error; buffer below `min_frames = 30 * 5 = 150` → collecting;
otherwise the validity gate `50 <= bpm <= 120 and snr > 2.0` either accepts
(push into the 5-deep history, report the median, confidence
`min(100, quality * snr / 10)`) or rejects (confidence 0, and the returned
rate is the — possibly stale — stored `current_bpm`). -/
def process_frame (st : RPPGState) (m : FrameMeasure) : RPPGResult × RPPGState :=
  if !m.roi_ok then
    let r : RPPGResult :=
      { has_heartbeat := false, bpm := 0, confidence := 0,
        status := RPPGStatus.errNoRoi }
    (r, st)
  else
    let count := min (st.green_count + 1) 300
    if count < 150 then
      let r : RPPGResult :=
        { has_heartbeat := false, bpm := 0, confidence := 0,
          status := RPPGStatus.collecting }
      (r, { st with green_count := count })
    else if 50 ≤ m.bpm ∧ m.bpm ≤ 120 ∧ 2 < m.snr then
      let hist0 := st.bpm_history ++ [m.bpm]
      let hist := if 5 < hist0.length then hist0.drop (hist0.length - 5)
        else hist0
      let cur := median hist
      let r : RPPGResult :=
        { has_heartbeat := true, bpm := cur,
          confidence := min 100 (m.quality * (m.snr / 10)),
          status := RPPGStatus.analyzing }
      let st2 : RPPGState :=
        { green_count := count, bpm_history := hist, current_bpm := cur,
          heartbeat_detected := true }
      (r, st2)
    else
      let r : RPPGResult :=
        { has_heartbeat := false, bpm := st.current_bpm,
          confidence := 0, status := RPPGStatus.noHeartbeat }
      (r, { st with green_count := count, heartbeat_detected := false })

/-- Fold a sequence of frame measurements through `process_frame`,
yielding the final detector state of the session. -/
def runRPPG (st : RPPGState) (ms : List FrameMeasure) : RPPGState :=
  ms.foldl (fun s m => (process_frame s m).2) st

theorem runRPPG_collecting (m : FrameMeasure) (hm : m.roi_ok = true) :
    ∀ k j : ℕ, j + k ≤ 149 →
      runRPPG ⟨j, [], 0, false⟩ (List.replicate k m) = ⟨j + k, [], 0, false⟩ := by
  intro k
  induction k with
  | zero => intro j h; simp [runRPPG]
  | succ k ih =>
      intro j h
      have hmin : min (j + 1) 300 = j + 1 := by omega
      have hlt : j + 1 < 150 := by omega
      have hstep : (process_frame ⟨j, [], 0, false⟩ m).2 = ⟨j + 1, [], 0, false⟩ := by
        simp [process_frame, hm, hmin, hlt]
      have htail := ih (j + 1) (by omega)
      have hadd : j + 1 + k = j + (k + 1) := by omega
      rw [List.replicate_succ]
      simp only [runRPPG, List.foldl_cons] at htail ⊢
      rw [hstep, htail, hadd]

/-- C6 (amended): a `process_frame` call with insufficient data returns zero
rate and zero confidence with the collecting status; a call rejected by the
validity gate (rate outside 50–120 or SNR ≤ 2.0) returns zero confidence and
the rejected status, but its returned rate is the stored smoothed
`current_bpm` — zero only while no estimate has yet been accepted — and the
two status flags are distinct. -/
theorem process_frame_gate_reporting (st : RPPGState) (m : FrameMeasure)
    (hroi : m.roi_ok = true) :
    (min (st.green_count + 1) 300 < 150 →
      (process_frame st m).1
        = { has_heartbeat := false, bpm := 0, confidence := 0,
            status := RPPGStatus.collecting })
    ∧ (150 ≤ min (st.green_count + 1) 300 →
        ¬(50 ≤ m.bpm ∧ m.bpm ≤ 120 ∧ 2 < m.snr) →
        (process_frame st m).1
          = { has_heartbeat := false, bpm := st.current_bpm, confidence := 0,
              status := RPPGStatus.noHeartbeat })
    ∧ RPPGStatus.collecting ≠ RPPGStatus.noHeartbeat := by
  refine ⟨fun h => ?_, fun h1 h2 => ?_, by decide⟩
  · simp [process_frame, hroi, h]
  · have hlt : ¬ min (st.green_count + 1) 300 < 150 := by omega
    simp [process_frame, hroi, hlt, h2]

/-- Witness for C6 (amended) at a fresh detector state and a failed frame. -/
theorem process_frame_gate_reporting_witness :
    (FrameMeasure.mk true 0 0 0).roi_ok = true
    ∧ ((min ((RPPGState.mk 0 [] 0 false).green_count + 1) 300 < 150 →
        (process_frame (RPPGState.mk 0 [] 0 false) (FrameMeasure.mk true 0 0 0)).1
          = { has_heartbeat := false, bpm := 0, confidence := 0,
              status := RPPGStatus.collecting })
      ∧ (150 ≤ min ((RPPGState.mk 0 [] 0 false).green_count + 1) 300 →
          ¬(50 ≤ (FrameMeasure.mk true 0 0 0).bpm
            ∧ (FrameMeasure.mk true 0 0 0).bpm ≤ 120
            ∧ 2 < (FrameMeasure.mk true 0 0 0).snr) →
          (process_frame (RPPGState.mk 0 [] 0 false) (FrameMeasure.mk true 0 0 0)).1
            = { has_heartbeat := false,
                bpm := (RPPGState.mk 0 [] 0 false).current_bpm, confidence := 0,
                status := RPPGStatus.noHeartbeat })
      ∧ RPPGStatus.collecting ≠ RPPGStatus.noHeartbeat) :=
  ⟨rfl, process_frame_gate_reporting (RPPGState.mk 0 [] 0 false)
    (FrameMeasure.mk true 0 0 0) rfl⟩

/-- A session that has filled the minimum buffer (149 collecting frames) and
then accepted one valid estimate of 60 BPM at SNR 3. -/
def staleSession : RPPGState :=
  runRPPG initRPPGState
    (List.replicate 149 (FrameMeasure.mk true 0 0 0)
      ++ [FrameMeasure.mk true 60 3 50])

theorem staleSession_eq : staleSession = ⟨150, [60], 60, true⟩ := by
  have h149 := runRPPG_collecting (FrameMeasure.mk true 0 0 0) rfl 149 0
    (by omega)
  unfold staleSession initRPPGState runRPPG
  rw [List.foldl_append]
  simp only [runRPPG] at h149
  rw [show (0 : ℕ) + 149 = 149 from rfl] at h149
  rw [h149]
  simp only [List.foldl_cons, List.foldl_nil]
  norm_num [process_frame, median, sortAsc, insertSorted]

/-- Counterexample to C6 as stated: after one accepted 60 BPM estimate, the
next call rejected by the validity gate (rate 200, SNR 0) still returns rate
60, not zero. -/
theorem process_frame_rejected_stale_rate :
    (process_frame staleSession (FrameMeasure.mk true 200 0 0)).1.status
      = RPPGStatus.noHeartbeat
    ∧ (process_frame staleSession (FrameMeasure.mk true 200 0 0)).1.confidence
      = 0
    ∧ (process_frame staleSession (FrameMeasure.mk true 200 0 0)).1.bpm = 60
    ∧ (process_frame staleSession (FrameMeasure.mk true 200 0 0)).1.bpm ≠ 0 := by
  rw [staleSession_eq]
  norm_num [process_frame]

/-- Per-frame features consumed by `LivenessDetector.hybrid_liveness_check`
(`backend/liveness_detector.py:322-429`): the pixel-derived quantities of the
six presentation indicators (periodicity for moiré, the motion / glow /
color flags, the Laplacian variance and mean gradient magnitude that form
the texture score, and the gradient-magnitude standard deviation of the edge
check — the edge check's sharpness value is the same Laplacian variance as
the texture score, so it is not a separate input), whether the Haar face
detector finds a face, and the rPPG measurement of the frame. -/
structure LivenessFeatures where
  periodicity : ℚ
  motion_suspicious : Bool
  laplacian_var : ℚ
  gradient_mag : ℚ
  gradient_consistency : ℚ
  screen_glow : Bool
  color_balanced : Bool
  face_found : Bool
  measure : FrameMeasure
deriving DecidableEq, Repr

/-- The `detect_texture_quality` score (`backend/liveness_detector.py:270`):
`laplacian_var / 10 + gradient_mag / 5`. -/
def texture_score (f : LivenessFeatures) : ℚ :=
  f.laplacian_var / 10 + f.gradient_mag / 5

/-- The `detect_moire_pattern` score (`backend/liveness_detector.py:80`):
`min(1.0, periodicity / 10000)`. -/
def moire_score (f : LivenessFeatures) : ℚ :=
  min 1 (f.periodicity / 10000)

/-- Moiré trigger (`backend/liveness_detector.py:82`): score above the
threshold `0.6`. -/
def has_moire (f : LivenessFeatures) : Bool :=
  decide ((0.6 : ℚ) < moire_score f)

/-- The enhanced edge-sharpness flag of `analyze_edge_sharpness`
(`backend/liveness_detector.py:208-247`): `sharpness` there is the Laplacian
variance of the same grayscale frame as the texture score
(`laplacian.var()`, lines 223-224 and 257), flagged when it exceeds the
threshold 250 or when the gradient-magnitude standard deviation is below
15. -/
def too_sharp (f : LivenessFeatures) : Bool :=
  decide (250 < f.laplacian_var ∨ f.gradient_consistency < 15)

/-- Texture realism band (`backend/liveness_detector.py:275`):
`15 < texture_score < 300`. -/
def texture_realistic (f : LivenessFeatures) : Bool :=
  decide (15 < texture_score f ∧ texture_score f < 300)

/-- Embedding of `LivenessDetector.detect_heartbeat_rppg`
(`backend/liveness_detector.py:283-320`) with rPPG enabled: a frame without
a detectable face yields the `no_face_detected` error, otherwise the frame
is handed to `RPPGDetector.process_frame`. -/
def detect_heartbeat_rppg (f : LivenessFeatures) (st : RPPGState) :
    RPPGResult × RPPGState :=
  if !f.face_found then
    let r : RPPGResult :=
      { has_heartbeat := false, bpm := 0, confidence := 0,
        status := RPPGStatus.errNoFace }
    (r, st)
  else process_frame st f.measure

/-- Whether the `no_heartbeat_detected` indicator fires in
`hybrid_liveness_check` (`backend/liveness_detector.py:376-386`): rPPG is
enabled, the heartbeat call reports no heartbeat, and its status is not the
collecting status. -/
def heartbeat_rejected (enable : Bool) (f : LivenessFeatures)
    (st : RPPGState) : Bool :=
  enable && (!(detect_heartbeat_rppg f st).1.has_heartbeat
    && decide ((detect_heartbeat_rppg f st).1.status ≠ RPPGStatus.collecting))

/-- The six presentation indicators appended (in source order) by
`hybrid_liveness_check` (`backend/liveness_detector.py:330-373`), each with
its confidence factor. The motion indicator name carries a reason suffix in
the source; only the `no_heartbeat_detected` name is ever compared, so the
suffix is dropped here. -/
def base_indicators (f : LivenessFeatures) : List (String × ℚ) :=
  (if has_moire f then [("screen_pattern_detected", moire_score f * 100)]
    else [])
  ++ (if f.motion_suspicious then [("suspicious_motion", (70 : ℚ))] else [])
  ++ (if too_sharp f then [("artificial_sharpness", (60 : ℚ))] else [])
  ++ (if !texture_realistic f then [("unrealistic_texture", (50 : ℚ))] else [])
  ++ (if f.screen_glow then [("screen_backlight_detected", (80 : ℚ))] else [])
  ++ (if f.color_balanced then [("artificial_color_balance", (65 : ℚ))]
    else [])

/-- The `(is_real, confidence, decision_tag)` verdict of
`hybrid_liveness_check`. -/
structure LivenessVerdict where
  is_real : Bool
  confidence : ℚ
  decision : String
deriving DecidableEq, Repr

/-- Embedding of `LivenessDetector.hybrid_liveness_check`
(`backend/liveness_detector.py:322-429`): run the indicator bank and (when
enabled) the rPPG heartbeat check, then fuse: a fired `no_heartbeat_detected`
indicator forces a spoof verdict at fixed confidence 90; otherwise the count
of triggered indicators selects the tier (≥3 spoof at the mean of the
triggered factors, 2 suspicious-but-allowed at `50 + texture/10`, 1 real at
`70 + texture/10`, 0 real at `min(100, 85 + texture/10)`). -/
def hybrid_liveness_check (enable : Bool) (f : LivenessFeatures)
    (st : RPPGState) : LivenessVerdict × RPPGState :=
  let st2 := if enable then (detect_heartbeat_rppg f st).2 else st
  let hbRej := heartbeat_rejected enable f st
  let indicators := base_indicators f
    ++ (if hbRej then [("no_heartbeat_detected", (95 : ℚ))] else [])
  let factors := indicators.map Prod.snd
  let ts := texture_score f
  let verdict : LivenessVerdict :=
    if hbRej then
      { is_real := false, confidence := 90,
        decision := "SPOOF_DETECTED_NO_HEARTBEAT" }
    else if 3 ≤ indicators.length then
      { is_real := false,
        confidence := if factors.length = 0 then 75
          else factors.sum / factors.length,
        decision := "SPOOF_DETECTED" }
    else if indicators.length = 2 then
      { is_real := true, confidence := 50 + ts / 10,
        decision := "SUSPICIOUS_BUT_ALLOWED" }
    else if indicators.length = 1 then
      { is_real := true, confidence := 70 + ts / 10,
        decision := "REAL_FACE" }
    else
      { is_real := true, confidence := min 100 (85 + ts / 10),
        decision := "REAL_FACE" }
  (verdict, st2)

theorem process_frame_no_heartbeat_flag (st : RPPGState) (m : FrameMeasure) :
    (process_frame st m).1.status = RPPGStatus.noHeartbeat →
    (process_frame st m).1.has_heartbeat = false := by
  simp only [process_frame]
  split_ifs <;> simp

theorem detect_heartbeat_no_heartbeat_flag (f : LivenessFeatures)
    (st : RPPGState) :
    (detect_heartbeat_rppg f st).1.status = RPPGStatus.noHeartbeat →
    (detect_heartbeat_rppg f st).1.has_heartbeat = false := by
  unfold detect_heartbeat_rppg
  split_ifs
  · simp
  · exact process_frame_no_heartbeat_flag st f.measure

/-- C2: a rejected heartbeat estimate overrides the indicator count: whenever
the heartbeat call reports the rejected (post-sufficient-data) status, the
liveness verdict is not-real with fixed confidence 90 and decision tag
`SPOOF_DETECTED_NO_HEARTBEAT`, for every configuration of the presentation
indicators (in particular with zero triggered indicators). -/
theorem hybrid_heartbeat_rejected_override (f : LivenessFeatures)
    (st : RPPGState)
    (h : (detect_heartbeat_rppg f st).1.status = RPPGStatus.noHeartbeat) :
    (hybrid_liveness_check true f st).1
      = { is_real := false, confidence := 90,
          decision := "SPOOF_DETECTED_NO_HEARTBEAT" } := by
  have hb := detect_heartbeat_no_heartbeat_flag f st h
  have hrej : heartbeat_rejected true f st = true := by
    simp [heartbeat_rejected, hb, h]
  simp [hybrid_liveness_check, hrej]

/-- Witness for C2: a session past the minimum buffer whose frame yields an
out-of-range rate (200 BPM) and zero triggered indicators. -/
theorem hybrid_heartbeat_rejected_override_witness :
    (detect_heartbeat_rppg
        (LivenessFeatures.mk 0 false 0 0 0 false false true
          (FrameMeasure.mk true 200 0 0))
        (RPPGState.mk 200 [] 0 false)).1.status = RPPGStatus.noHeartbeat
    ∧ (hybrid_liveness_check true
        (LivenessFeatures.mk 0 false 0 0 0 false false true
          (FrameMeasure.mk true 200 0 0))
        (RPPGState.mk 200 [] 0 false)).1
      = { is_real := false, confidence := 90,
          decision := "SPOOF_DETECTED_NO_HEARTBEAT" } :=
  ⟨by norm_num [detect_heartbeat_rppg, process_frame],
    hybrid_heartbeat_rejected_override
      (LivenessFeatures.mk 0 false 0 0 0 false false true
        (FrameMeasure.mk true 200 0 0))
      (RPPGState.mk 200 [] 0 false)
      (by norm_num [detect_heartbeat_rppg, process_frame])⟩

theorem mem_ite_singleton {α : Type} {c : Prop} [Decidable c] {a x : α}
    (h : x ∈ if c then [a] else ([] : List α)) : x = a := by
  split at h
  · simpa using h
  · simp at h

theorem hybrid_not_rejected (enable : Bool) (f : LivenessFeatures)
    (st : RPPGState) (h : heartbeat_rejected enable f st = false) :
    (hybrid_liveness_check enable f st).1
      = (if 3 ≤ (base_indicators f).length then
          { is_real := false,
            confidence := if (base_indicators f).length = 0 then 75
              else ((base_indicators f).map Prod.snd).sum
                / ((base_indicators f).length : ℚ),
            decision := "SPOOF_DETECTED" }
        else if (base_indicators f).length = 2 then
          { is_real := true, confidence := 50 + texture_score f / 10,
            decision := "SUSPICIOUS_BUT_ALLOWED" }
        else if (base_indicators f).length = 1 then
          { is_real := true, confidence := 70 + texture_score f / 10,
            decision := "REAL_FACE" }
        else
          { is_real := true,
            confidence := min 100 (85 + texture_score f / 10),
            decision := "REAL_FACE" }) := by
  simp [hybrid_liveness_check, h]

theorem base_indicators_len_zero_realistic (f : LivenessFeatures)
    (h : (base_indicators f).length = 0) : texture_realistic f = true := by
  cases htr : texture_realistic f with
  | true => rfl
  | false =>
      exfalso
      rw [base_indicators] at h
      simp only [List.length_append, htr] at h
      simp at h

/-- C3: when the heartbeat override does not fire, the triggered-indicator
count maps deterministically to decision tiers: 0 → REAL_FACE, real, with
confidence at least 85; 1 → REAL_FACE, real; 2 → SUSPICIOUS_BUT_ALLOWED,
real; 3 or more → SPOOF_DETECTED, not real. -/
theorem hybrid_indicator_tiers (enable : Bool) (f : LivenessFeatures)
    (st : RPPGState) (h : heartbeat_rejected enable f st = false) :
    ((base_indicators f).length = 0 →
      (hybrid_liveness_check enable f st).1.is_real = true
      ∧ (hybrid_liveness_check enable f st).1.decision = "REAL_FACE"
      ∧ 85 ≤ (hybrid_liveness_check enable f st).1.confidence)
    ∧ ((base_indicators f).length = 1 →
      (hybrid_liveness_check enable f st).1.is_real = true
      ∧ (hybrid_liveness_check enable f st).1.decision = "REAL_FACE")
    ∧ ((base_indicators f).length = 2 →
      (hybrid_liveness_check enable f st).1.is_real = true
      ∧ (hybrid_liveness_check enable f st).1.decision
        = "SUSPICIOUS_BUT_ALLOWED")
    ∧ (3 ≤ (base_indicators f).length →
      (hybrid_liveness_check enable f st).1.is_real = false
      ∧ (hybrid_liveness_check enable f st).1.decision = "SPOOF_DETECTED") := by
  rw [hybrid_not_rejected enable f st h]
  refine ⟨fun h0 => ?_, fun h1 => ?_, fun h2 => ?_, fun h3 => ?_⟩
  · have hreal := base_indicators_len_zero_realistic f h0
    rw [texture_realistic, decide_eq_true_iff] at hreal
    rw [h0]
    norm_num
    linarith [hreal.1]
  · rw [h1]; norm_num
  · rw [h2]; norm_num
  · rw [if_pos h3]; norm_num

/-- Witness for C3: a frame with no triggered indicators and rPPG disabled
lands in the zero-indicator REAL_FACE tier. -/
theorem hybrid_indicator_tiers_witness :
    heartbeat_rejected false
      (LivenessFeatures.mk 0 false 200 0 20 false false false
        (FrameMeasure.mk false 0 0 0)) initRPPGState = false
    ∧ (base_indicators
        (LivenessFeatures.mk 0 false 200 0 20 false false false
          (FrameMeasure.mk false 0 0 0))).length = 0
    ∧ ((hybrid_liveness_check false
        (LivenessFeatures.mk 0 false 200 0 20 false false false
          (FrameMeasure.mk false 0 0 0)) initRPPGState).1.is_real = true
      ∧ (hybrid_liveness_check false
          (LivenessFeatures.mk 0 false 200 0 20 false false false
            (FrameMeasure.mk false 0 0 0)) initRPPGState).1.decision
          = "REAL_FACE"
      ∧ 85 ≤ (hybrid_liveness_check false
          (LivenessFeatures.mk 0 false 200 0 20 false false false
            (FrameMeasure.mk false 0 0 0)) initRPPGState).1.confidence) :=
  ⟨rfl,
    by norm_num [base_indicators, has_moire, moire_score, texture_realistic,
      texture_score, too_sharp, min_def],
    (hybrid_indicator_tiers false
      (LivenessFeatures.mk 0 false 200 0 20 false false false
        (FrameMeasure.mk false 0 0 0)) initRPPGState rfl).1
      (by norm_num [base_indicators, has_moire, moire_score, texture_realistic,
        texture_score, too_sharp, min_def])⟩

/-- Counterexample to C9 as stated: a frame with Laplacian variance 6000,
mean gradient 100 and gradient-magnitude deviation 100 triggers exactly the
artificial-sharpness indicator (6000 > 250) and the unrealistic-texture
indicator (texture score 620 ≥ 300), so the two-indicator tier applies and
the confidence is `50 + 620 / 10 = 112`, outside the 0–100 range. -/
theorem hybrid_confidence_exceeds_range :
    (hybrid_liveness_check false
        (LivenessFeatures.mk 1000 false 6000 100 100 false false false
          (FrameMeasure.mk false 0 0 0)) initRPPGState).1.decision
      = "SUSPICIOUS_BUT_ALLOWED"
    ∧ (hybrid_liveness_check false
        (LivenessFeatures.mk 1000 false 6000 100 100 false false false
          (FrameMeasure.mk false 0 0 0)) initRPPGState).1.confidence = 112
    ∧ ¬((hybrid_liveness_check false
        (LivenessFeatures.mk 1000 false 6000 100 100 false false false
          (FrameMeasure.mk false 0 0 0)) initRPPGState).1.confidence ≤ 100) := by
  refine ⟨?_, ?_, ?_⟩ <;>
    norm_num [hybrid_liveness_check, heartbeat_rejected, base_indicators,
      has_moire, moire_score, texture_realistic, texture_score, too_sharp,
      min_def]

theorem base_indicators_snd_bounds (f : LivenessFeatures)
    (hp : 0 ≤ f.periodicity) :
    ∀ p ∈ base_indicators f, 0 ≤ p.2 ∧ p.2 ≤ 100 := by
  have hm0 : (0 : ℚ) ≤ moire_score f := le_min (by norm_num) (by positivity)
  have hm1 : moire_score f ≤ 1 := min_le_left _ _
  intro p hpmem
  rw [base_indicators] at hpmem
  simp only [List.mem_append, or_assoc] at hpmem
  rcases hpmem with h | h | h | h | h | h
  · obtain rfl := mem_ite_singleton h
    constructor
    · show (0 : ℚ) ≤ moire_score f * 100
      nlinarith
    · show moire_score f * 100 ≤ 100
      nlinarith
  · obtain rfl := mem_ite_singleton h; norm_num
  · obtain rfl := mem_ite_singleton h; norm_num
  · obtain rfl := mem_ite_singleton h; norm_num
  · obtain rfl := mem_ite_singleton h; norm_num
  · obtain rfl := mem_ite_singleton h; norm_num

theorem mean_bounds (l : List ℚ) (h : ∀ x ∈ l, 0 ≤ x ∧ x ≤ 100) :
    0 ≤ (if l.length = 0 then (75 : ℚ) else l.sum / l.length)
    ∧ (if l.length = 0 then (75 : ℚ) else l.sum / l.length) ≤ 100 := by
  split
  · norm_num
  · rename_i hne
    have hpos : 0 < l.length := Nat.pos_of_ne_zero hne
    have hlen : (0 : ℚ) < l.length := by exact_mod_cast hpos
    constructor
    · exact div_nonneg (List.sum_nonneg fun x hx => (h x hx).1) (le_of_lt hlen)
    · rw [div_le_iff₀ hlen]
      calc l.sum ≤ l.length • (100 : ℚ) :=
            List.sum_le_card_nsmul l 100 fun x hx => (h x hx).2
        _ = 100 * l.length := by rw [nsmul_eq_mul]; ring

/-- C9 (amended): with nonnegative feature scores and texture score at most
300, the liveness confidence lies in 0–100 in every decision tier; the one-
and two-indicator formulas `70 + texture/10` and `50 + texture/10` are
uncapped, so the bound genuinely needs the texture-score premise (see the
texture-620 two-indicator counterexample, where the confidence is 112). -/
theorem hybrid_confidence_in_range (enable : Bool) (f : LivenessFeatures)
    (st : RPPGState) (hp : 0 ≤ f.periodicity) (hl : 0 ≤ f.laplacian_var)
    (hg : 0 ≤ f.gradient_mag) (hts : texture_score f ≤ 300) :
    0 ≤ (hybrid_liveness_check enable f st).1.confidence
    ∧ (hybrid_liveness_check enable f st).1.confidence ≤ 100 := by
  have hts0 : 0 ≤ texture_score f := by
    rw [texture_score]; positivity
  cases hrej : heartbeat_rejected enable f st with
  | true =>
      have hconf : (hybrid_liveness_check enable f st).1.confidence = 90 := by
        simp [hybrid_liveness_check, hrej]
      rw [hconf]
      norm_num
  | false =>
      rw [hybrid_not_rejected enable f st hrej]
      have hfac : ∀ x ∈ (base_indicators f).map Prod.snd, 0 ≤ x ∧ x ≤ 100 := by
        intro x hx
        rcases List.mem_map.1 hx with ⟨p, hpm, rfl⟩
        exact base_indicators_snd_bounds f hp p hpm
      split_ifs with h3 h0 h2 h1 <;> dsimp only
      · norm_num
      · have hlm := List.length_map (base_indicators f) Prod.snd
        have hne : ((base_indicators f).map Prod.snd).length ≠ 0 := by
          rw [hlm]; exact h0
        have hmb := mean_bounds ((base_indicators f).map Prod.snd) hfac
        rw [if_neg hne, hlm] at hmb
        exact hmb
      · constructor <;> linarith
      · constructor <;> linarith
      · refine ⟨?_, ?_⟩
        · exact le_min (by norm_num) (by linarith)
        · exact min_le_left _ _

/-- Witness for C9 (amended): a frame with texture score 20 and no triggered
indicators stays within the 0–100 confidence range. -/
theorem hybrid_confidence_in_range_witness :
    (0 : ℚ) ≤ (LivenessFeatures.mk 0 false 200 0 20 false false false
      (FrameMeasure.mk false 0 0 0)).periodicity
    ∧ (0 : ℚ) ≤ (LivenessFeatures.mk 0 false 200 0 20 false false false
      (FrameMeasure.mk false 0 0 0)).laplacian_var
    ∧ (0 : ℚ) ≤ (LivenessFeatures.mk 0 false 200 0 20 false false false
      (FrameMeasure.mk false 0 0 0)).gradient_mag
    ∧ texture_score (LivenessFeatures.mk 0 false 200 0 20 false false false
      (FrameMeasure.mk false 0 0 0)) ≤ 300
    ∧ (0 ≤ (hybrid_liveness_check false
        (LivenessFeatures.mk 0 false 200 0 20 false false false
          (FrameMeasure.mk false 0 0 0)) initRPPGState).1.confidence
      ∧ (hybrid_liveness_check false
        (LivenessFeatures.mk 0 false 200 0 20 false false false
          (FrameMeasure.mk false 0 0 0)) initRPPGState).1.confidence ≤ 100) :=
  ⟨by norm_num, by norm_num, by norm_num, by norm_num [texture_score],
    hybrid_confidence_in_range false
      (LivenessFeatures.mk 0 false 200 0 20 false false false
        (FrameMeasure.mk false 0 0 0)) initRPPGState
      (by norm_num) (by norm_num) (by norm_num) (by norm_num [texture_score])⟩

/-- Mutable state of `InjectionDetector` used by `analyze_sensor_noise`
(`backend/injection_detector.py:13-15`): the learned baseline (initially
`None`) and the session frame counter. -/
structure NoiseState where
  baseline : Option ℚ
  frame_count : ℕ
deriving DecidableEq, Repr

/-- Fresh `InjectionDetector` noise state. -/
def initNoiseState : NoiseState :=
  { baseline := none, frame_count := 0 }

/-- Embedding of `InjectionDetector.analyze_sensor_noise`
(`backend/injection_detector.py:68-90`) with the per-frame Laplacian standard
deviation `noise_level` as input: during the first 10 frames the baseline is
learned (set to the first level, then repeatedly replaced by
`(baseline + noise_level) / 2`) and the frame is reported not suspicious;
afterwards the state is left unchanged and the frame is flagged exactly when
`noise_level < 1.0`. -/
def analyze_sensor_noise (st : NoiseState) (noise_level : ℚ) :
    (Bool × ℚ) × NoiseState :=
  if st.frame_count < 10 then
    let b := match st.baseline with
      | none => noise_level
      | some b => (b + noise_level) / 2
    ((false, noise_level),
      { baseline := some b, frame_count := st.frame_count + 1 })
  else
    ((decide (noise_level < 1), noise_level), st)

/-- Fold a sequence of per-frame noise levels through `analyze_sensor_noise`,
yielding the final detector state of the session. -/
def runNoise (st : NoiseState) (ns : List ℚ) : NoiseState :=
  ns.foldl (fun s n => (analyze_sensor_noise s n).2) st

theorem noise_run_ten_hundreds :
    runNoise initNoiseState
      [100, 100, 100, 100, 100, 100, 100, 100, 100, 100]
      = { baseline := some 100, frame_count := 10 } := by
  norm_num [runNoise, analyze_sensor_noise, initNoiseState]

/-- Counterexample to C7 as stated: after ten frames of noise level 100 the
learned baseline is 100, yet a frame with noise level 2 — fifty times below
the baseline — is not flagged, because the post-learning check compares
against the absolute threshold 1.0 and never reads the baseline. -/
theorem analyze_sensor_noise_ignores_baseline :
    (runNoise initNoiseState
        [100, 100, 100, 100, 100, 100, 100, 100, 100, 100]).baseline
      = some 100
    ∧ (analyze_sensor_noise
        (runNoise initNoiseState
          [100, 100, 100, 100, 100, 100, 100, 100, 100, 100]) 2).1
      = (false, 2) := by
  rw [noise_run_ten_hundreds]
  constructor
  · rfl
  · norm_num [analyze_sensor_noise]

/-- C7 (amended): `analyze_sensor_noise` learns the baseline over the first
10 frames of a session (first level, then repeated halving averages) while
reporting those frames not suspicious; from then on it flags a frame exactly
when its noise level is strictly below the fixed threshold 1.0, a decision
independent of the learned baseline. -/
theorem analyze_sensor_noise_behaviour (st : NoiseState) (noise : ℚ) :
    (st.frame_count < 10 →
      (analyze_sensor_noise st noise).1 = (false, noise)
      ∧ (analyze_sensor_noise st noise).2.frame_count = st.frame_count + 1
      ∧ (analyze_sensor_noise st noise).2.baseline
        = some (match st.baseline with
            | none => noise
            | some b => (b + noise) / 2))
    ∧ (10 ≤ st.frame_count →
      (analyze_sensor_noise st noise).1 = (decide (noise < 1), noise)
      ∧ (analyze_sensor_noise st noise).2 = st)
    ∧ (∀ st2 : NoiseState, 10 ≤ st.frame_count → 10 ≤ st2.frame_count →
      (analyze_sensor_noise st noise).1 = (analyze_sensor_noise st2 noise).1) := by
  refine ⟨fun h => ?_, fun h => ?_, fun st2 h h2 => ?_⟩
  · simp [analyze_sensor_noise, h]
  · have hn : ¬ st.frame_count < 10 := by omega
    simp [analyze_sensor_noise, hn]
  · have hn : ¬ st.frame_count < 10 := by omega
    have hn2 : ¬ st2.frame_count < 10 := by omega
    simp [analyze_sensor_noise, hn, hn2]

/-- Witness for C7 (amended): the first frame of a session, noise level 5,
is not flagged and initializes the baseline. -/
theorem analyze_sensor_noise_behaviour_witness :
    initNoiseState.frame_count < 10
    ∧ (analyze_sensor_noise initNoiseState 5).1 = (false, 5)
    ∧ (analyze_sensor_noise initNoiseState 5).2.baseline = some 5 :=
  ⟨by norm_num [initNoiseState],
    ((analyze_sensor_noise_behaviour initNoiseState 5).1
      (by norm_num [initNoiseState])).1,
    by
      have h := ((analyze_sensor_noise_behaviour initNoiseState 5).1
        (by norm_num [initNoiseState])).2.2
      simpa [initNoiseState] using h⟩
